import Mathlib

/-!
Verification development for the `step_neg_check` negative high-impact event
detector (`src/step_neg_check/agents/negative_event_detector.py` and
`src/step_neg_check/pipeline.py`).

The detector is a pure, rule-based classifier: it concatenates title and
content, lower-cases the result, and runs four sequential gates (geographic
relevance, confirmed outcome, speculative exclusion, weighted criteria score
against a 2.0 threshold), returning the string "yes" or "no".

Modelling conventions:
- Text is `List Char`; Python `str.lower` is modelled as ASCII case folding
  (`lowerChar`), which is exact on the detector's all-ASCII vocabulary.
- Python regular expressions of the detector use only word-bounded literal
  alternations `\b(w1|w2|...)\b`, the two-group form `\b(g1)\s+(g2)\b`, and one
  negative lookahead `(?!\s+(of\s+)?(confirmed|announced|declared))`.  They are
  embedded as explicit scanners (`scanAux`, `searchWordAlts`, `searchPair`,
  `lookBlocked`) with `re.findall` / `re.search` semantics: leftmost,
  non-overlapping, first-alternative-wins matching.  `re.IGNORECASE` is
  modelled by case-folding the subject text, which is equivalent because every
  pattern word is lower-case ASCII.
- Python floats carry only multiples of 0.5 here, which binary floating point
  adds exactly, so weights and scores are embedded as `ℚ`.
-/

set_option maxRecDepth 40000
set_option maxHeartbeats 4000000

namespace NegCheck

/-- ASCII case folding of one character, the effect of Python `str.lower` on
the ASCII range. -/
def lowerChar (c : Char) : Char :=
  if 65 ≤ c.toNat ∧ c.toNat ≤ 90 then Char.ofNat (c.toNat + 32) else c

/-- ASCII upper-casing of one character, the effect of Python `str.upper` on
the ASCII range. -/
def upperChar (c : Char) : Char :=
  if 97 ≤ c.toNat ∧ c.toNat ≤ 122 then Char.ofNat (c.toNat - 32) else c

/-- Case folding of a whole text, modelling `text.lower()`. -/
def lowerStr (cs : List Char) : List Char := cs.map lowerChar

/-- Python regex word character `\w` restricted to ASCII: letters, digits and
underscore. -/
def isWordChar (c : Char) : Bool := c.isAlpha || c.isDigit || c = '_'

/-- Python regex whitespace `\s` restricted to ASCII. -/
def isSpaceChar (c : Char) : Bool :=
  c = ' ' || c = '\t' || c = '\n' || c = '\r' || c = Char.ofNat 11 || c = Char.ofNat 12

/-- Literal-prefix test: does the second list start with the first one. -/
def startsWithL : List Char → List Char → Bool
  | [], _ => true
  | _ :: _, [] => false
  | a :: xs, b :: ys => a = b && startsWithL xs ys

/-- Python substring containment `needle in hay`. -/
def containsSub (needle : List Char) : List Char → Bool
  | [] => needle.isEmpty
  | c :: rest => startsWithL needle (c :: rest) || containsSub needle rest

/-- Word boundary `\b` immediately after a word character: the remaining text
is empty or starts with a non-word character. -/
def boundaryAfter : List Char → Bool
  | [] => true
  | c :: _ => !isWordChar c

/-- The first alternative of `alts` (in pattern order) that matches at the
start of `cs` with a trailing word boundary and whose trailing context is not
rejected by the lookahead `blocked`.  This is the backtracking behaviour of a
Python alternation `(w1|w2|...)\b(?!...)` at one position. -/
def altHit (alts : List (List Char)) (blocked : List Char → Bool) (cs : List Char) :
    Option (List Char) :=
  match alts with
  | [] => none
  | a :: rest =>
    if startsWithL a cs && boundaryAfter (cs.drop a.length) && !blocked (cs.drop a.length) then
      some a
    else altHit rest blocked cs

/-- Match counter for `re.findall` on a pattern `\b(w1|w2|...)\b(?!...)` whose
alternatives start and end with word characters: scan left to right; a match
may start only where the previous character is not a word character
(`prevW = false`); on a match, count it and skip past the matched word
(`skip` counts the characters of a match still to be consumed). -/
def scanAux (alts : List (List Char)) (blocked : List Char → Bool) :
    Nat → Bool → List Char → Nat
  | _, _, [] => 0
  | skip + 1, _, c :: rest => scanAux alts blocked skip (isWordChar c) rest
  | 0, prevW, c :: rest =>
    if prevW then scanAux alts blocked 0 (isWordChar c) rest
    else
      match altHit alts blocked (c :: rest) with
      | some a => 1 + scanAux alts blocked (a.length - 1) (isWordChar c) rest
      | none => scanAux alts blocked 0 (isWordChar c) rest

/-- Number of `re.findall` matches of `\b(w1|w2|...)\b(?!...)` in a text. -/
def scanWordAlts (alts : List (List Char)) (blocked : List Char → Bool) (cs : List Char) : Nat :=
  scanAux alts blocked 0 false cs

/-- Existence of an `re.search` match of `\b(w1|w2|...)\b` in a text. -/
def searchWordAlts (alts : List (List Char)) : Bool → List Char → Bool
  | _, [] => false
  | prevW, c :: rest =>
    (!prevW && (altHit alts (fun _ => false) (c :: rest)).isSome)
      || searchWordAlts alts (isWordChar c) rest

/-- Consume the run `\s+`: at least one whitespace character, then all further
whitespace (equivalent to greedy matching because every continuation in the
detector's patterns starts with a non-space character). -/
def dropSpaces1 : List Char → Option (List Char)
  | [] => none
  | c :: rest => if isSpaceChar c then some (rest.dropWhile isSpaceChar) else none

/-- One-position match of the two-group pattern `\b(g1)\s+(g2)\b`. -/
def pairHere (alts1 alts2 : List (List Char)) (cs : List Char) : Bool :=
  alts1.any fun a1 =>
    startsWithL a1 cs &&
      (match dropSpaces1 (cs.drop a1.length) with
       | some r => alts2.any fun a2 => startsWithL a2 r && boundaryAfter (r.drop a2.length)
       | none => false)

/-- Existence of an `re.search` match of `\b(g1)\s+(g2)\b` in a text. -/
def searchPair (alts1 alts2 : List (List Char)) : Bool → List Char → Bool
  | _, [] => false
  | prevW, c :: rest =>
    (!prevW && pairHere alts1 alts2 (c :: rest)) || searchPair alts1 alts2 (isWordChar c) rest

/-- The lookahead body `\s+(of\s+)?(w1|w2|...)`: whitespace, an optional "of"
followed by whitespace, then one of the words `ws` as a literal prefix (the
lookahead has no trailing word boundary). -/
def lookBlocked (ws : List (List Char)) (cs : List Char) : Bool :=
  match dropSpaces1 cs with
  | none => false
  | some r =>
    (ws.any fun w => startsWithL w r) ||
      (startsWithL ['o', 'f'] r &&
        (match dropSpaces1 (r.drop 2) with
         | some r2 => ws.any fun w => startsWithL w r2
         | none => false))

/-- Apostrophe character, used by the keyword "workers' strike". -/
def apos : String := String.singleton (Char.ofNat 39)

/-- The class attribute `NegativeEventDetector.TARGET_COUNTRIES` (a Python
set; membership only, so the order below is immaterial). -/
def TARGET_COUNTRIES : List String :=
  ["indonesia", "china", "vietnam", "cambodia", "laos",
   "indonesian", "chinese", "vietnamese", "cambodian", "laotian",
   "jakarta", "beijing", "hanoi", "phnom penh", "vientiane"]

/-- One entry of `NegativeEventDetector.CRITERIA_KEYWORDS`: a criterion name
with its keyword list and weight. -/
structure Criterion where
  name : String
  keywords : List String
  weight : ℚ

/-- The class attribute `NegativeEventDetector.CRITERIA_KEYWORDS`, in source
order. -/
def CRITERIA_KEYWORDS : List Criterion :=
  [⟨"production_disruption",
    ["factory shutdown", "factory shutdowns", "plant closure", "production halt",
     "manufacturing disruption", "supply chain disruption",
     "port closure", "port shutdown", "port closed",
     "shipping disruption", "shipping halted",
     "logistics disruption", "airport closure", "energy crisis",
     "power outage", "blackout", "labor strike", "worker strike",
     "mass strike", "industrial action", "work stoppage",
     "factory fire", "explosion at", "production suspended",
     "operations halted", "supply shortage", "supply cut",
     "disruption confirmed", "shutdown confirmed",
     "strike began", "workers" ++ apos ++ " strike", "announced shutdowns"],
    3.0⟩,
   ⟨"corporate_distress",
    ["bankruptcy", "bankrupt", "default", "defaults on",
     "insolvency", "insolvent", "debt restructuring",
     "credit downgrade", "rating downgrade", "downgraded to",
     "liquidity crisis", "cash crisis", "unable to pay",
     "filed for bankruptcy", "chapter 11", "creditors meeting",
     "debt default confirmed", "restructuring confirmed"],
    3.0⟩,
   ⟨"sovereign_stress",
    ["sovereign default", "sovereign downgrade",
     "country downgrade", "national default",
     "imf bailout", "imf program", "imf loan",
     "emergency bailout", "capital controls", "capital flight",
     "bank run", "banking crisis", "bank collapse",
     "interbank freeze", "financial system collapse",
     "currency crisis", "currency devaluation",
     "foreign reserves depleted", "sovereign debt crisis"],
    3.5⟩,
   ⟨"trade_restrictions",
    ["tariff imposed", "tariff increase", "new tariffs",
     "export ban", "import ban", "trade ban",
     "sanctions imposed", "sanctions announced",
     "trade barriers", "market access denied",
     "trade restrictions", "embargo", "export restrictions",
     "import restrictions", "trade war", "retaliatory tariffs"],
    3.0⟩,
   ⟨"regulatory_political_shock",
    ["nationalization", "nationalised", "nationalized",
     "asset seizure", "assets seized", "expropriation",
     "industry ban", "sector ban", "regulatory crackdown",
     "government crackdown", "forced shutdown",
     "political crisis", "government collapse",
     "leadership removed", "president removed", "prime minister removed",
     "coup", "military takeover", "state of emergency declared",
     "institution dissolved", "parliament dissolved"],
    3.5⟩,
   ⟨"capital_withdrawal",
    ["business closure", "company exit", "market exit",
     "withdrawal from market", "pulling out", "exiting country",
     "capital flight", "foreign investment withdrawn",
     "operations relocated", "factory relocated",
     "mass layoffs", "workforce reduction",
     "hiring freeze", "investment cancelled",
     "project cancelled", "expansion cancelled",
     "shutdown announced", "closure confirmed"],
    2.5⟩,
   ⟨"demand_contraction",
    ["demand collapse", "demand fell", "demand dropped",
     "consumer spending fell", "consumer spending declined",
     "exports declined", "exports fell", "exports dropped",
     "industrial demand fell", "b2b transactions declined",
     "sales plummeted", "orders cancelled", "order backlog",
     "sustained decline", "continued contraction",
     "recession", "economic contraction", "quarter of contraction"],
    2.5⟩,
   ⟨"natural_disaster",
    ["earthquake", "typhoon", "hurricane", "cyclone",
     "flood", "flooding", "major fire", "wildfire",
     "epidemic", "pandemic", "disease outbreak",
     "drought", "landslide", "tsunami", "volcanic eruption",
     "death toll", "casualties reported", "evacuation ordered",
     "disaster zone", "state of emergency", "emergency declared"],
    2.5⟩,
   ⟨"infrastructure_failure",
    ["power grid failure", "grid collapse", "blackout",
     "port shutdown", "port closed", "port disruption",
     "telecommunications outage", "network failure",
     "payment system down", "banking system down",
     "cyberattack", "cyber attack", "ransomware",
     "transport system failure", "rail disruption",
     "air traffic halted", "infrastructure failure"],
    3.0⟩,
   ⟨"corporate_outlook_cuts",
    ["negative outlook", "outlook cut", "profit warning",
     "earnings warning", "guidance cut", "lowered forecast",
     "capex cut", "capital expenditure cut", "investment cut",
     "project cancelled", "expansion cancelled",
     "hiring freeze", "job cuts", "layoffs announced",
     "restructuring announced", "cost cutting"],
    2.0⟩,
   ⟨"fiscal_tightening",
    ["stimulus ended", "stimulus withdrawn", "support ended",
     "subsidy cut", "subsidy removed", "subsidy expired",
     "new tax", "tax increase", "tax hike",
     "austerity measures", "spending cuts", "budget cuts",
     "fiscal tightening", "government spending cut"],
    2.5⟩,
   ⟨"market_instability",
    ["market crash", "stock market plunge", "stocks tumble",
     "index fell", "market volatility", "sharp decline",
     "currency plunge", "currency crash", "exchange rate fall",
     "commodity crash", "oil price crash", "price collapse",
     "trading halted", "circuit breaker", "sell-off"],
    2.0⟩,
   ⟨"geopolitical_escalation",
    ["military conflict", "armed conflict", "border clash",
     "military confrontation", "maritime blockade",
     "naval blockade", "civil unrest", "riots", "protests turn violent",
     "state of emergency declared", "mobilization",
     "troops deployed", "military action", "escalation confirmed"],
    3.5⟩,
   ⟨"structural_escalation",
    ["first time", "unprecedented", "never before",
     "record high", "record low", "worst since",
     "sharpest decline", "largest drop", "historic",
     "all-time", "exceptional", "extraordinary measures"],
    1.5⟩]

/-- Alternation word list of `EXCLUSION_PATTERNS[0]` (modal/uncertainty). -/
def EXCLUSION_WORDS_1 : List String :=
  ["may", "might", "could", "would", "should", "potentially", "possibly", "expected",
   "forecast", "projected", "predicted", "anticipated", "likely", "rumored", "speculated"]

/-- Alternation word list of `EXCLUSION_PATTERNS[1]` (proposal/planning). -/
def EXCLUSION_WORDS_2 : List String :=
  ["proposal", "proposed", "draft", "plan to", "considering", "discussing",
   "negotiating", "talks about"]

/-- Alternation word list of `EXCLUSION_PATTERNS[2]` (conditional). -/
def EXCLUSION_WORDS_3 : List String :=
  ["if", "whether", "whether or not", "in case", "hypothetical", "scenario"]

/-- Alternation word list of `EXCLUSION_PATTERNS[3]` (risk/concern). -/
def EXCLUSION_WORDS_4 : List String :=
  ["risk of", "threat of", "concern about", "fear of", "worry about"]

/-- Alternation word list of `EXCLUSION_PATTERNS[4]` (warning/advisory). -/
def EXCLUSION_WORDS_5 : List String :=
  ["warns", "warning", "caution", "advisory", "alert"]

/-- Words of the negative lookahead of `EXCLUSION_PATTERNS[4]`:
`(?!\s+(of\s+)?(confirmed|announced|declared))`. -/
def LOOKAHEAD_WORDS : List String := ["confirmed", "announced", "declared"]

/-- The lookahead of the warning/advisory pattern applied to the text after a
matched warning word. -/
def warningBlocked (cs : List Char) : Bool :=
  lookBlocked (LOOKAHEAD_WORDS.map String.data) cs

/-- Match count of `EXCLUSION_PATTERNS[4]`, the warning/advisory family with
its negative lookahead. -/
def warningCount (cs : List Char) : Nat :=
  scanWordAlts (EXCLUSION_WORDS_5.map String.data) warningBlocked cs

/-- Total `re.findall` match count over the five `EXCLUSION_PATTERNS`
families; `re.IGNORECASE` is modelled by case folding the subject. -/
def exclusion_count (text : List Char) : Nat :=
  let t := lowerStr text
  scanWordAlts (EXCLUSION_WORDS_1.map String.data) (fun _ => false) t +
    scanWordAlts (EXCLUSION_WORDS_2.map String.data) (fun _ => false) t +
    scanWordAlts (EXCLUSION_WORDS_3.map String.data) (fun _ => false) t +
    scanWordAlts (EXCLUSION_WORDS_4.map String.data) (fun _ => false) t +
    warningCount t

/-- The method `NegativeEventDetector._check_exclusion_patterns`: true iff at
least 3 matches of the speculative-language patterns occur in the text. -/
def check_exclusion_patterns (text : List Char) : Bool :=
  3 ≤ exclusion_count text

/-- The method `NegativeEventDetector._check_geographic_requirement`:
substring containment of any target-country token in the lower-cased text. -/
def check_geographic_requirement (text : List Char) : Bool :=
  TARGET_COUNTRIES.any fun c => containsSub c.data (lowerStr text)

/-- Alternation word list of `CONFIRMATION_PATTERNS[0]`. -/
def CONFIRMATION_WORDS_1 : List String :=
  ["confirmed", "announced", "declared", "official", "finalized", "completed",
   "executed", "implemented"]

/-- Alternation word list of `CONFIRMATION_PATTERNS[1]`. -/
def CONFIRMATION_WORDS_2 : List String :=
  ["has occurred", "occurred on", "took place", "happened"]

/-- Alternation word list of `CONFIRMATION_PATTERNS[2]`. -/
def CONFIRMATION_WORDS_3 : List String :=
  ["reported that", "stated that", "announced that"]

/-- Alternation word list of the first past-tense indicator pattern of
`_check_confirmed_outcome`. -/
def PAST_WORDS_1 : List String :=
  ["shut down", "closed", "collapsed", "defaulted", "filed", "declared", "announced",
   "implemented", "imposed", "occurred", "happened"]

/-- Alternation word list of the second past-tense indicator pattern. -/
def PAST_WORDS_2 : List String :=
  ["has shut", "has closed", "has collapsed", "has defaulted", "has filed"]

/-- First group of the pattern `\b(has been|were)\s+(...)\b`. -/
def PAST_PAIR_A1 : List String := ["has been", "were"]

/-- Second group of the pattern `\b(has been|were)\s+(...)\b`. -/
def PAST_PAIR_A2 : List String :=
  ["shut", "closed", "destroyed", "damaged", "cancelled", "halted", "stopped"]

/-- First group of the pattern `\b(operations)\s+(...)\b`. -/
def PAST_PAIR_B1 : List String := ["operations"]

/-- Second group of the pattern `\b(operations)\s+(...)\b`. -/
def PAST_PAIR_B2 : List String := ["halted", "stopped", "suspended"]

/-- The plain substring disaster indicators of `_check_confirmed_outcome`. -/
def DISASTER_INDICATORS : List String :=
  ["earthquake struck", "typhoon hit", "flood hit", "fire destroyed",
   "killed", "died", "injured", "evacuated", "destroyed"]

/-- The method `NegativeEventDetector._check_confirmed_outcome`: the three
confirmation pattern families, the four past-tense indicator patterns and the
disaster substring indicators, combined by logical or. -/
def check_confirmed_outcome (text : List Char) : Bool :=
  let t := lowerStr text
  searchWordAlts (CONFIRMATION_WORDS_1.map String.data) false t ||
    searchWordAlts (CONFIRMATION_WORDS_2.map String.data) false t ||
    searchWordAlts (CONFIRMATION_WORDS_3.map String.data) false t ||
    searchWordAlts (PAST_WORDS_1.map String.data) false t ||
    searchWordAlts (PAST_WORDS_2.map String.data) false t ||
    searchPair (PAST_PAIR_A1.map String.data) (PAST_PAIR_A2.map String.data) false t ||
    searchPair (PAST_PAIR_B1.map String.data) (PAST_PAIR_B2.map String.data) false t ||
    DISASTER_INDICATORS.any fun k => containsSub k.data t

/-- The method `NegativeEventDetector._evaluate_criteria`: for each criterion,
the first keyword found in the lower-cased text adds the criterion's weight
once (the source's per-category `break`; equivalently `List.any`). -/
def evaluate_criteria (text : List Char) : ℚ :=
  CRITERIA_KEYWORDS.foldl
    (fun total c =>
      if c.keywords.any (fun k => containsSub k.data (lowerStr text)) then total + c.weight
      else total)
    0

/-- The normalized text `f"{title} {content}".lower()` built by `detect` and
`get_detailed_analysis`. -/
def normalize (title content : String) : List Char :=
  lowerStr (title.data ++ ' ' :: content.data)

/-- The dataclass `EventContext`. -/
structure EventContext where
  title : String
  content : String
  country : Option String
  is_confirmed : Bool
  has_material_impact : Bool

/-- The method `NegativeEventDetector.detect`, with its early returns as
nested conditionals. -/
def detect (event : EventContext) : String :=
  let text := normalize event.title event.content
  if check_geographic_requirement text = false then "no"
  else if check_confirmed_outcome text = false then "no"
  else if check_exclusion_patterns text = true then "no"
  else if (2.0 : ℚ) ≤ evaluate_criteria text then "yes"
  else "no"

/-- The method `NegativeEventDetector.detect_from_text` (hint fields take
their dataclass defaults). -/
def detect_from_text (title content : String) : String :=
  detect ⟨title, content, none, false, false⟩

/-- The dictionary returned by `NegativeEventDetector.get_detailed_analysis`. -/
structure AnalysisResult where
  result : String
  geographic_match : Bool
  confirmed_outcome : Bool
  excluded : Bool
  criteria_matches : List (String × List String × ℚ)
  total_score : ℚ

/-- The `criteria_matches` list built by `get_detailed_analysis`: for each
criterion with at least one keyword occurring in the text, the criterion name,
the first three matched keywords and the weight. -/
def analysisMatches (text : List Char) : List (String × List String × ℚ) :=
  CRITERIA_KEYWORDS.filterMap fun c =>
    if (c.keywords.filter fun k => containsSub k.data text).isEmpty then none
    else some (c.name, (c.keywords.filter fun k => containsSub k.data text).take 3, c.weight)

/-- The method `NegativeEventDetector.get_detailed_analysis`. -/
def get_detailed_analysis (title content : String) : AnalysisResult :=
  let text := normalize title content
  { result := detect_from_text title content
    geographic_match := check_geographic_requirement text
    confirmed_outcome := check_confirmed_outcome text
    excluded := check_exclusion_patterns text
    criteria_matches := analysisMatches text
    total_score := ((analysisMatches text).map fun m => m.2.2).sum }

/-- An input record of the batch mode `pipeline.process_json_file`, restricted
to the four fields the pipeline reads; a missing field is `none`. -/
structure JsonEvent where
  title : Option String
  content : Option String
  description : Option String
  summary : Option String

/-- Python's short-circuiting `a or b` on strings: the empty string is falsy. -/
def pyOr (a b : String) : String := if a = "" then b else a

/-- The title extracted by `process_json_file`: `event.get('title', '')`. -/
def eventTitle (e : JsonEvent) : String := e.title.getD ""

/-- The content extracted by `process_json_file`:
`event.get('content', '') or event.get('description', '') or event.get('summary', '')`. -/
def eventText (e : JsonEvent) : String :=
  pyOr (pyOr (e.content.getD "") (e.description.getD "")) (e.summary.getD "")

/-- The per-record classification of `process_json_file`. -/
def processEvent (e : JsonEvent) : String :=
  detect_from_text (eventTitle e) (eventText e)

/-- Character-wise case-variant relation: each character of the second text is
the upper-cased or lower-cased form of the corresponding character of the
first. -/
def caseVariantB : List Char → List Char → Bool
  | [], [] => true
  | a :: xs, b :: ys => (b = upperChar a || b = lowerChar a) && caseVariantB xs ys
  | _, _ => false

/-- Stated from the words of claim C5 (not from the source): a lookahead that
exempts a warning word only when followed by `(of)?` and then "confirmed" or
"announced" - the claim omits "declared". -/
def warningBlockedClaim (cs : List Char) : Bool :=
  lookBlocked (["confirmed", "announced"].map String.data) cs

/-- Stated from the words of claim C5 (not from the source): the match count
of the warning/advisory family that claim C5 describes. -/
def warningCountClaim (cs : List Char) : Nat :=
  scanWordAlts (EXCLUSION_WORDS_5.map String.data) warningBlockedClaim cs

/-- Sum of the criterion weights selected by a parallel list of flags; used
to evaluate `evaluate_criteria` on concrete inputs without forcing rational
arithmetic inside the kernel. -/
def flaggedSum : List Criterion → List Bool → ℚ
  | c :: cs, b :: bs => (if b then c.weight else 0) + flaggedSum cs bs
  | _, _ => 0

/-- Title of the reference scenario of claim C7 (test case 8 of
`test_detector.py`). -/
def title7 : String := "Port of Jakarta confirmed closed due to strike"

/-- Content of the reference scenario of claim C7 (test case 8 of
`test_detector.py`). -/
def content7 : String :=
  "The Port of Jakarta has been confirmed closed after a massive workers" ++ apos ++
    " strike began on Monday. All shipping operations have been halted indefinitely."

/-- The normalized text of the claim C7 scenario, written out literally so
concrete evaluations need not re-fold the case of every character; proved
equal to `normalize title7 content7` below. -/
def norm7 : String :=
  "port of jakarta confirmed closed due to strike the port of jakarta has been confirmed closed after a massive workers" ++
    apos ++ " strike began on monday. all shipping operations have been halted indefinitely."

theorem toNat_ofNat_of_lt {n : Nat} (h : n < 55296) : (Char.ofNat n).toNat = n := by
  rw [Char.ofNat, dif_pos (Or.inl h)]
  simp [Char.ofNatAux, Char.toNat, UInt32.toNat, BitVec.toNat_ofNatLt]

theorem lowerChar_lowerChar (c : Char) : lowerChar (lowerChar c) = lowerChar c := by
  by_cases h : 65 ≤ c.toNat ∧ c.toNat ≤ 90
  · have h1 : (Char.ofNat (c.toNat + 32)).toNat = c.toNat + 32 :=
      toNat_ofNat_of_lt (by omega)
    simp only [lowerChar, if_pos h, h1]
    rw [if_neg (by omega)]
  · simp only [lowerChar, if_neg h]

theorem lowerChar_upperChar (c : Char) : lowerChar (upperChar c) = lowerChar c := by
  by_cases h : 97 ≤ c.toNat ∧ c.toNat ≤ 122
  · have h1 : (Char.ofNat (c.toNat - 32)).toNat = c.toNat - 32 :=
      toNat_ofNat_of_lt (by omega)
    simp only [upperChar, lowerChar, if_pos h, h1]
    rw [if_pos (by omega), if_neg (by omega)]
    have h2 : c.toNat - 32 + 32 = c.toNat := by omega
    rw [h2, Char.ofNat_toNat]
  · simp only [upperChar, if_neg h]

theorem lowerStr_lowerStr (cs : List Char) : lowerStr (lowerStr cs) = lowerStr cs := by
  induction cs with
  | nil => rfl
  | cons c rest ih =>
    simp only [lowerStr, List.map_cons] at *
    rw [lowerChar_lowerChar]
    exact congrArg _ (by simpa [lowerStr] using ih)

theorem lowerStr_of_caseVariantB {a b : List Char} (h : caseVariantB a b = true) :
    lowerStr b = lowerStr a := by
  induction a generalizing b with
  | nil => cases b <;> simp [caseVariantB] at h ⊢
  | cons c rest ih =>
    cases b with
    | nil => simp [caseVariantB] at h
    | cons d bs =>
      simp only [caseVariantB, Bool.and_eq_true, Bool.or_eq_true, decide_eq_true_eq] at h
      obtain ⟨hd, ht⟩ := h
      simp only [lowerStr, List.map_cons]
      have hdc : lowerChar d = lowerChar c := by
        rcases hd with h1 | h1 <;> subst h1
        · exact lowerChar_upperChar c
        · exact lowerChar_lowerChar c
      rw [hdc]
      exact congrArg _ (by simpa [lowerStr] using ih ht)

theorem caseVariantB_append {a b x y : List Char} (h1 : caseVariantB a x = true)
    (h2 : caseVariantB b y = true) : caseVariantB (a ++ b) (x ++ y) = true := by
  induction a generalizing x with
  | nil => cases x <;> simp_all [caseVariantB]
  | cons c rest ih =>
    cases x with
    | nil => simp [caseVariantB] at h1
    | cons d xs =>
      simp only [caseVariantB, Bool.and_eq_true] at h1
      simp only [List.cons_append, caseVariantB, Bool.and_eq_true]
      exact ⟨h1.1, ih h1.2⟩

theorem foldl_weight (l : List Criterion) (p : Criterion → Bool) (a : ℚ) :
    l.foldl (fun total c => if p c then total + c.weight else total) a =
      a + (l.map fun c => if p c then c.weight else 0).sum := by
  induction l generalizing a with
  | nil => simp
  | cons c rest ih =>
    cases hp : p c <;> simp [List.foldl, hp, ih, add_assoc]

theorem filter_isEmpty_eq_not_any (l : List String) (p : String → Bool) :
    (l.filter p).isEmpty = !(l.any p) := by
  induction l with
  | nil => rfl
  | cons s rest ih =>
    cases hp : p s <;> simp [List.filter, List.any, hp, ih]

theorem analysisMatches_total (text : List Char) :
    ((analysisMatches text).map fun m => m.2.2).sum =
      (CRITERIA_KEYWORDS.map fun c =>
        if c.keywords.any (fun k => containsSub k.data text) then c.weight else 0).sum := by
  unfold analysisMatches
  induction CRITERIA_KEYWORDS with
  | nil => rfl
  | cons c rest ih =>
    cases ha : c.keywords.any fun k => containsSub k.data text
    · rw [List.filterMap_cons]
      rw [if_pos (by rw [filter_isEmpty_eq_not_any, ha]; rfl)]
      rw [ih, List.map_cons]
      rw [List.sum_cons, if_neg (by rw [ha]; simp), zero_add]
    · rw [List.filterMap_cons]
      rw [if_neg (by rw [filter_isEmpty_eq_not_any, ha]; simp)]
      rw [List.map_cons, List.sum_cons, ih, List.map_cons, List.sum_cons, if_pos ha]

theorem lowerStr_normalize (title content : String) :
    lowerStr (normalize title content) = normalize title content := by
  unfold normalize
  exact lowerStr_lowerStr _

theorem detect_eq_gates (e : EventContext) :
    detect e =
      if check_geographic_requirement (normalize e.title e.content) = true ∧
          check_confirmed_outcome (normalize e.title e.content) = true ∧
          check_exclusion_patterns (normalize e.title e.content) = false ∧
          (2.0 : ℚ) ≤ evaluate_criteria (normalize e.title e.content) then "yes"
      else "no" := by
  unfold detect
  split_ifs <;> simp_all

theorem foldl_flag (l : List Criterion) (p : Criterion → Bool) (a : ℚ) :
    l.foldl (fun total c => if p c then total + c.weight else total) a =
      a + flaggedSum l (l.map p) := by
  induction l generalizing a with
  | nil => simp [flaggedSum]
  | cons c rest ih =>
    cases hp : p c <;> simp [List.foldl, flaggedSum, hp, ih, add_assoc]

theorem detailed_total_eq_eval (title content : String) :
    (get_detailed_analysis title content).total_score =
      evaluate_criteria (normalize title content) := by
  show ((analysisMatches (normalize title content)).map fun m => m.2.2).sum = _
  rw [analysisMatches_total]
  unfold evaluate_criteria
  rw [foldl_weight, zero_add, lowerStr_normalize]

theorem detect_from_text_eq (title content : String) :
    detect_from_text title content =
      if check_geographic_requirement (normalize title content) = true ∧
          check_confirmed_outcome (normalize title content) = true ∧
          check_exclusion_patterns (normalize title content) = false ∧
          (2.0 : ℚ) ≤ evaluate_criteria (normalize title content) then "yes"
      else "no" := by
  show detect ⟨title, content, none, false, false⟩ = _
  rw [detect_eq_gates]

/-- C1: for every (title, content), `detect` on the normalized lower-cased
text "{title} {content}" returns "yes" iff the geographic gate passes, the
confirmation gate passes, the exclusion gate does not fire, and the weighted
criteria score is at least 2.0; each gate failure yields "no" (the nested
conditionals of `detect` are the short-circuit), and the only return values
are "yes" and "no". -/
theorem claim1_detect_gate_structure (title content : String) :
    (detect_from_text title content = "yes" ↔
      (check_geographic_requirement (normalize title content) = true ∧
       check_confirmed_outcome (normalize title content) = true ∧
       check_exclusion_patterns (normalize title content) = false ∧
       (2.0 : ℚ) ≤ evaluate_criteria (normalize title content))) ∧
    (detect_from_text title content = "yes" ∨ detect_from_text title content = "no") := by
  rw [detect_from_text_eq]
  by_cases h : check_geographic_requirement (normalize title content) = true ∧
      check_confirmed_outcome (normalize title content) = true ∧
      check_exclusion_patterns (normalize title content) = false ∧
      (2.0 : ℚ) ≤ evaluate_criteria (normalize title content)
  · rw [if_pos h]
    exact ⟨⟨fun _ => h, fun _ => rfl⟩, Or.inl rfl⟩
  · rw [if_neg h]
    exact ⟨⟨fun hy => absurd hy (by decide), fun hp => absurd hp h⟩, Or.inr rfl⟩

/-- C2: the weighted criteria score is the sum, over the 14 fixed categories,
of the category weight counted exactly once when at least one keyword occurs
as a substring of the lower-cased text and zero otherwise, and the category
weights are exactly the listed ones. -/
theorem claim2_criteria_weights (text : List Char) :
    evaluate_criteria text =
      ((CRITERIA_KEYWORDS.map fun c =>
        if c.keywords.any (fun k => containsSub k.data (lowerStr text)) then c.weight
        else 0).sum) ∧
    CRITERIA_KEYWORDS.map (fun c => (c.name, c.weight)) =
      [("production_disruption", (3.0 : ℚ)), ("corporate_distress", 3.0),
       ("sovereign_stress", 3.5), ("trade_restrictions", 3.0),
       ("regulatory_political_shock", 3.5), ("capital_withdrawal", 2.5),
       ("demand_contraction", 2.5), ("natural_disaster", 2.5),
       ("infrastructure_failure", 3.0), ("corporate_outlook_cuts", 2.0),
       ("fiscal_tightening", 2.5), ("market_instability", 2.0),
       ("geopolitical_escalation", 3.5), ("structural_escalation", 1.5)] ∧
    CRITERIA_KEYWORDS.length = 14 := by
  refine ⟨?_, rfl, rfl⟩
  unfold evaluate_criteria
  rw [foldl_weight, zero_add]

/-- C3: the speculative-exclusion filter fires iff the total number of
matches over the five exclusion-pattern families is at least 3, and any input
that passes the geographic and confirmation gates with such a count is
rejected regardless of its score. -/
theorem claim3_exclusion_dominance (title content : String) :
    (check_exclusion_patterns (normalize title content) = true ↔
      3 ≤ exclusion_count (normalize title content)) ∧
    (check_geographic_requirement (normalize title content) = true →
      check_confirmed_outcome (normalize title content) = true →
      3 ≤ exclusion_count (normalize title content) →
      detect_from_text title content = "no") := by
  constructor
  · simp [check_exclusion_patterns]
  · intro hg hc hx
    have he : check_exclusion_patterns (normalize title content) = true := by
      simp [check_exclusion_patterns, hx]
    unfold detect_from_text detect
    simp [hg, hc, he]

/-- Witness for C3 at a concrete input: "Indonesia confirmed" with three
modal words, rejected through the exclusion gate. -/
theorem claim3_witness :
    detect_from_text "Indonesia confirmed" "it may might could happen" = "no" :=
  (claim3_exclusion_dominance "Indonesia confirmed" "it may might could happen").2
    (by decide) (by decide) (by decide)

/-- C4: if no target-entity token occurs as a substring of the normalized
text, the verdict is "no" regardless of the score, and the geographic gate
passes exactly when some token occurs as a literal substring. -/
theorem claim4_geographic_necessity (title content : String) :
    ((∀ c ∈ TARGET_COUNTRIES, containsSub c.data (normalize title content) = false) →
      detect_from_text title content = "no") ∧
    (check_geographic_requirement (normalize title content) = true ↔
      ∃ c ∈ TARGET_COUNTRIES, containsSub c.data (normalize title content) = true) := by
  have hn := lowerStr_normalize title content
  constructor
  · intro h
    have hg : check_geographic_requirement (normalize title content) = false := by
      unfold check_geographic_requirement
      rw [hn]
      simp only [List.any_eq_false]
      intro x hx
      simp [h x hx]
    unfold detect_from_text detect
    simp [hg]
  · unfold check_geographic_requirement
    rw [hn]
    simp [List.any_eq_true]

/-- Witness for C4 at a concrete input with no target-entity mention. -/
theorem claim4_witness : detect_from_text "hello" "world" = "no" :=
  (claim4_geographic_necessity "hello" "world").1 (by decide)

/-- C9: the verdict is a pure function of title and content alone: the
country, is_confirmed and has_material_impact hint fields of `EventContext`
never influence it, and equal inputs give equal detailed analyses. -/
theorem claim9_hint_independence (e₁ e₂ : EventContext)
    (ht : e₁.title = e₂.title) (hc : e₁.content = e₂.content) :
    detect e₁ = detect e₂ ∧
    get_detailed_analysis e₁.title e₁.content = get_detailed_analysis e₂.title e₂.content := by
  constructor
  · unfold detect
    rw [ht, hc]
  · rw [ht, hc]

/-- Witness for C9: two contexts sharing text but holding different hint
fields. -/
theorem claim9_witness :
    detect ⟨"Indonesia port closure", "The closure was confirmed.", none, false, false⟩ =
      detect ⟨"Indonesia port closure", "The closure was confirmed.", some "Laos", true, true⟩ ∧
    get_detailed_analysis "Indonesia port closure" "The closure was confirmed." =
      get_detailed_analysis "Indonesia port closure" "The closure was confirmed." :=
  claim9_hint_independence
    ⟨"Indonesia port closure", "The closure was confirmed.", none, false, false⟩
    ⟨"Indonesia port closure", "The closure was confirmed.", some "Laos", true, true⟩
    rfl rfl

/-- C10: the total_score of the detailed analysis equals the score computed
by `evaluate_criteria` inside `detect`, and the result field is "yes" exactly
when the analysis's own gate fields pass and its total_score reaches 2.0. -/
theorem claim10_detailed_consistency (title content : String) :
    (get_detailed_analysis title content).total_score =
      evaluate_criteria (normalize title content) ∧
    ((get_detailed_analysis title content).result = "yes" ↔
      ((get_detailed_analysis title content).geographic_match = true ∧
       (get_detailed_analysis title content).confirmed_outcome = true ∧
       (get_detailed_analysis title content).excluded = false ∧
       (2.0 : ℚ) ≤ (get_detailed_analysis title content).total_score)) := by
  have hscore := detailed_total_eq_eval title content
  refine ⟨hscore, ?_⟩
  show detect_from_text title content = "yes" ↔
    (check_geographic_requirement (normalize title content) = true ∧
     check_confirmed_outcome (normalize title content) = true ∧
     check_exclusion_patterns (normalize title content) = false ∧
     (2.0 : ℚ) ≤ (get_detailed_analysis title content).total_score)
  rw [hscore]
  rw [detect_from_text_eq]
  by_cases h : check_geographic_requirement (normalize title content) = true ∧
      check_confirmed_outcome (normalize title content) = true ∧
      check_exclusion_patterns (normalize title content) = false ∧
      (2.0 : ℚ) ≤ evaluate_criteria (normalize title content)
  · rw [if_pos h]
    exact ⟨fun _ => h, fun _ => rfl⟩
  · rw [if_neg h]
    exact ⟨fun hy => absurd hy (by decide), fun hp => absurd hp h⟩

/-- C5 counterexample: in "warning declared" the warning token is not
followed by "confirmed" or "announced", so by the claim's wording it should
count toward the exclusion tally, but the source pattern's lookahead also
exempts "declared", so the code counts nothing. -/
theorem claim5_counterexample :
    warningCount ("warning declared").data = 0 ∧
    warningCountClaim ("warning declared").data = 1 := by
  exact ⟨by decide, by decide⟩

/-- C5 (amended): a warning-family token at a word boundary contributes one
match exactly when it is NOT immediately followed by whitespace, an optional
"of", and then "confirmed", "announced" or "declared" (the `warningBlocked`
lookahead); scanning then continues after the token. -/
theorem claim5_amended_lookahead (w : String) (hw : w ∈ EXCLUSION_WORDS_5)
    (s : List Char) (hs : boundaryAfter s = true) :
    warningCount (w.data ++ s) =
      (if warningBlocked s = true then 0 else 1) +
        scanAux (EXCLUSION_WORDS_5.map String.data) warningBlocked 0 true s := by
  have halts : EXCLUSION_WORDS_5.map String.data =
      [['w', 'a', 'r', 'n', 's'], ['w', 'a', 'r', 'n', 'i', 'n', 'g'],
       ['c', 'a', 'u', 't', 'i', 'o', 'n'], ['a', 'd', 'v', 'i', 's', 'o', 'r', 'y'],
       ['a', 'l', 'e', 'r', 't']] := rfl
  simp only [EXCLUSION_WORDS_5, List.mem_cons, List.not_mem_nil, or_false] at hw
  rcases hw with rfl | rfl | rfl | rfl | rfl
  · have hwd : ("warns".data ++ s : List Char) = 'w' :: 'a' :: 'r' :: 'n' :: 's' :: s := rfl
    rw [warningCount, scanWordAlts, halts, hwd]
    cases hb : warningBlocked s <;>
      simp [scanAux, altHit, startsWithL, isWordChar, hs, hb]
  · have hwd : ("warning".data ++ s : List Char) =
        'w' :: 'a' :: 'r' :: 'n' :: 'i' :: 'n' :: 'g' :: s := rfl
    rw [warningCount, scanWordAlts, halts, hwd]
    cases hb : warningBlocked s <;>
      simp [scanAux, altHit, startsWithL, isWordChar, hs, hb]
  · have hwd : ("caution".data ++ s : List Char) =
        'c' :: 'a' :: 'u' :: 't' :: 'i' :: 'o' :: 'n' :: s := rfl
    rw [warningCount, scanWordAlts, halts, hwd]
    cases hb : warningBlocked s <;>
      simp [scanAux, altHit, startsWithL, isWordChar, hs, hb]
  · have hwd : ("advisory".data ++ s : List Char) =
        'a' :: 'd' :: 'v' :: 'i' :: 's' :: 'o' :: 'r' :: 'y' :: s := rfl
    rw [warningCount, scanWordAlts, halts, hwd]
    cases hb : warningBlocked s <;>
      simp [scanAux, altHit, startsWithL, isWordChar, hs, hb]
  · have hwd : ("alert".data ++ s : List Char) = 'a' :: 'l' :: 'e' :: 'r' :: 't' :: s := rfl
    rw [warningCount, scanWordAlts, halts, hwd]
    cases hb : warningBlocked s <;>
      simp [scanAux, altHit, startsWithL, isWordChar, hs, hb]

/-- Witness for the amended C5 at the concrete suffix " of confirmed losses"
behind the token "warns". -/
theorem claim5_witness :
    warningCount ("warns".data ++ (" of confirmed losses").data) =
      (if warningBlocked (" of confirmed losses").data = true then 0 else 1) +
        scanAux (EXCLUSION_WORDS_5.map String.data) warningBlocked 0 true
          (" of confirmed losses").data :=
  claim5_amended_lookahead "warns" (by decide) (" of confirmed losses").data (by decide)

/-- C6: the verdict and the weighted score are unchanged when every character
of the title and of the content is replaced by its upper- or lower-cased
form. -/
theorem claim6_case_insensitive (t t' c c' : String)
    (ht : caseVariantB t.data t'.data = true) (hc : caseVariantB c.data c'.data = true) :
    detect_from_text t' c' = detect_from_text t c ∧
    evaluate_criteria (normalize t' c') = evaluate_criteria (normalize t c) := by
  have hspc : ((' ' = upperChar ' ' || ' ' = lowerChar ' ') : Bool) = true := by decide
  have hsp : caseVariantB (' ' :: c.data) (' ' :: c'.data) = true := by
    show ((' ' = upperChar ' ' || ' ' = lowerChar ' ') && caseVariantB c.data c'.data) = true
    rw [hspc, hc]
    rfl
  have hn : normalize t' c' = normalize t c :=
    lowerStr_of_caseVariantB (caseVariantB_append ht hsp)
  constructor
  · rw [detect_from_text_eq, detect_from_text_eq, hn]
  · rw [hn]

/-- Witness for C6: a shouted-case variant of a qualifying headline. -/
theorem claim6_witness :
    detect_from_text "INDONESIA FLOOD" "MANY DIED IN THE FLOOD." =
      detect_from_text "Indonesia flood" "Many died in the flood." ∧
    evaluate_criteria (normalize "INDONESIA FLOOD" "MANY DIED IN THE FLOOD.") =
      evaluate_criteria (normalize "Indonesia flood" "Many died in the flood.") :=
  claim6_case_insensitive "Indonesia flood" "INDONESIA FLOOD"
    "Many died in the flood." "MANY DIED IN THE FLOOD." (by decide) (by decide)

/-- C8: a batch record whose title, content, description and summary fields
are missing or empty is classified from empty strings; the empty text fails
the geographic gate and yields "no"; and for every input the classifier
returns a value (it is total, so no exception is possible) which is always
"yes" or "no". -/
theorem claim8_missing_fields (e : JsonEvent)
    (ht : e.title = none ∨ e.title = some "")
    (hc : e.content = none ∨ e.content = some "")
    (hd : e.description = none ∨ e.description = some "")
    (hs : e.summary = none ∨ e.summary = some "") :
    eventTitle e = "" ∧ eventText e = "" ∧ processEvent e = "no" ∧
    check_geographic_requirement (normalize "" "") = false ∧
    (∀ title content : String,
      detect_from_text title content = "yes" ∨ detect_from_text title content = "no") := by
  have h1 : eventTitle e = "" := by
    rcases ht with h | h <;> simp [eventTitle, h]
  have h2 : eventText e = "" := by
    rcases hc with h | h <;> rcases hd with h' | h' <;> rcases hs with h'' | h'' <;>
      simp [eventText, pyOr, h, h', h'']
  have h3 : processEvent e = "no" := by
    rw [processEvent, h1, h2]
    decide
  refine ⟨h1, h2, h3, by decide, fun title content => ?_⟩
  rw [detect_from_text_eq]
  by_cases h : check_geographic_requirement (normalize title content) = true ∧
      check_confirmed_outcome (normalize title content) = true ∧
      check_exclusion_patterns (normalize title content) = false ∧
      (2.0 : ℚ) ≤ evaluate_criteria (normalize title content)
  · rw [if_pos h]
    exact Or.inl rfl
  · rw [if_neg h]
    exact Or.inr rfl

/-- Witness for C8: the all-missing record is classified "no". -/
theorem claim8_witness : processEvent ⟨none, none, none, none⟩ = "no" :=
  (claim8_missing_fields ⟨none, none, none, none⟩
    (Or.inl rfl) (Or.inl rfl) (Or.inl rfl) (Or.inl rfl)).2.2.1

theorem norm7_eq : normalize title7 content7 = norm7.data := by decide

theorem analysis7_names :
    ((analysisMatches norm7.data).map fun m => m.1) = ["production_disruption"] := by
  decide

/-- C7 counterexample: on the reference Jakarta-port input, the detailed
analysis does not list the infrastructure_failure category - none of its
keywords ("port closed", "port shutdown", ...) occurs contiguously in the
text - contradicting the claim that it is among the matches. -/
theorem claim7_counterexample :
    ¬ "infrastructure_failure" ∈
        ((get_detailed_analysis title7 content7).criteria_matches.map fun m => m.1) := by
  have hnames : ((get_detailed_analysis title7 content7).criteria_matches.map fun m => m.1) =
      ["production_disruption"] := by
    show ((analysisMatches (normalize title7 content7)).map fun m => m.1) = _
    rw [norm7_eq]
    exact analysis7_names
  rw [hnames]
  decide

/-- C7 (amended): on the reference Jakarta-port input the verdict is "yes";
production_disruption is the only category listed in the detailed analysis
(infrastructure_failure does not match), and the total score is 3.0, above
the 2.0 threshold. -/
theorem claim7_amended_analysis :
    (get_detailed_analysis title7 content7).result = "yes" ∧
    ((get_detailed_analysis title7 content7).criteria_matches.map fun m => m.1) =
      ["production_disruption"] ∧
    (get_detailed_analysis title7 content7).total_score = 3 ∧
    (2.0 : ℚ) ≤ (get_detailed_analysis title7 content7).total_score := by
  have hg : check_geographic_requirement (normalize title7 content7) = true := by
    rw [norm7_eq]
    decide
  have hco : check_confirmed_outcome (normalize title7 content7) = true := by
    rw [norm7_eq]
    decide
  have he : check_exclusion_patterns (normalize title7 content7) = false := by
    rw [norm7_eq]
    decide
  have h1 : evaluate_criteria (normalize title7 content7) =
      0 + flaggedSum CRITERIA_KEYWORDS
        (CRITERIA_KEYWORDS.map fun c =>
          c.keywords.any fun k => containsSub k.data (lowerStr (normalize title7 content7))) :=
    foldl_flag CRITERIA_KEYWORDS
      (fun c => c.keywords.any fun k => containsSub k.data (lowerStr (normalize title7 content7)))
      0
  have hflags : (CRITERIA_KEYWORDS.map fun c =>
      c.keywords.any fun k => containsSub k.data (lowerStr (normalize title7 content7))) =
      [true, false, false, false, false, false, false,
       false, false, false, false, false, false, false] := by
    rw [lowerStr_normalize, norm7_eq]
    decide
  rw [hflags] at h1
  have hfs : flaggedSum CRITERIA_KEYWORDS
      [true, false, false, false, false, false, false,
       false, false, false, false, false, false, false] = 3 := by
    norm_num [flaggedSum, CRITERIA_KEYWORDS]
  have hscore : evaluate_criteria (normalize title7 content7) = 3 := by
    rw [h1, hfs]
    norm_num
  have hyes : detect_from_text title7 content7 = "yes" := by
    rw [detect_from_text_eq, if_pos ⟨hg, hco, he, by rw [hscore]; norm_num⟩]
  have hnames : ((get_detailed_analysis title7 content7).criteria_matches.map fun m => m.1) =
      ["production_disruption"] := by
    show ((analysisMatches (normalize title7 content7)).map fun m => m.1) = _
    rw [norm7_eq]
    exact analysis7_names
  have htotal : (get_detailed_analysis title7 content7).total_score = 3 := by
    rw [detailed_total_eq_eval, hscore]
  exact ⟨hyes, hnames, htotal, by rw [htotal]; norm_num⟩

end NegCheck
